import Mathlib

/-!
Shallow embedding of src/dshot_rmt_encoder.c (DShot-ESP32RMT).

Pure computations of the C file (frame construction, CRC, timing
arithmetic) become Lean functions on Nat; machine-integer truncation
is written explicitly with % 2^w.  The two sub-encoders (the ESP-IDF
bytes encoder and copy encoder) are external collaborators: the
orchestrator only observes, per call, the symbol count and the status
flags each reports, so one sub-encoder call is modelled by the record
of those observables.  The floating-point timing computations of the
constructor are modelled in exact rational arithmetic; at the concrete
configuration considered below the float/double evaluation and the
exact evaluation round to the same integers.
-/

/-! ### ESP error codes (esp_err.h, external interface) -/

def ESP_OK : Nat := 0

def ESP_ERR_NO_MEM : Nat := 0x101

def ESP_ERR_INVALID_ARG : Nat := 0x102

/-! ### Frame construction: make_dshot_frame

dshot_frame_t is a 16-bit union of bitfields, low bits first:
crc : 4 (bits 0-3), telemetry : 1 (bit 4), throttle : 11 (bits 5-15).
pack_frame gives the value of frame.val after the three bitfield
assignments, with the C truncation of each field write made explicit. -/

def pack_frame (throttle : Nat) (telemetry : Bool) (crc : Nat) : Nat :=
  ((throttle % 2048) <<< 5) ||| ((cond telemetry 1 0) <<< 4) ||| (crc % 16)

/-- CRC computation of make_dshot_frame (lines 55-60 of the C file):
val is the packed frame with crc field 0; the seed is truncated to
uint8_t; bidirectional mode inverts the 8-bit value; the high nibble
is masked and shifted down into the 4-bit crc field. -/
def dshot_crc_field (throttle : Nat) (telemetry bidirectional : Bool) : Nat :=
  let val := pack_frame throttle telemetry 0
  let crc0 := (val ^^^ (val >>> 4) ^^^ (val >>> 8)) % 256
  let crc1 := if bidirectional then crc0 ^^^ 0xFF else crc0
  ((crc1 &&& 0xF0) >>> 4)

/-- The frame value just before the byte swap of line 64: the packed
fields with the computed crc inserted in bits 0-3. -/
def make_dshot_frame_preswap (throttle : Nat) (telemetry bidirectional : Bool) : Nat :=
  pack_frame throttle telemetry (dshot_crc_field throttle telemetry bidirectional)

/-- The endian swap on a 16-bit value (line 64 of the C file). -/
def swap_bytes16 (v : Nat) : Nat :=
  ((v &&& 0xFF) <<< 8) ||| ((v &&& 0xFF00) >>> 8)

/-- make_dshot_frame: the wire-order (byte-swapped) 16-bit frame. -/
def make_dshot_frame (throttle : Nat) (telemetry bidirectional : Bool) : Nat :=
  swap_bytes16 (make_dshot_frame_preswap throttle telemetry bidirectional)

/-! ### Reference CRC formula, written from the words of the spec
(section 8, CRC correctness), to be compared with the code: payload is
the 12-bit value (throttle <<< 1) ||| telemetry; the seed is
payload XOR payload>>4 XOR payload>>8, bitwise-inverted (at 12-bit
width) iff bidirectional; the CRC is the low nibble of the seed. -/

def dshot_crc_reference (throttle : Nat) (telemetry bidirectional : Bool) : Nat :=
  let payload := ((throttle <<< 1) ||| (cond telemetry 1 0)) % 4096
  let seed := payload ^^^ (payload >>> 4) ^^^ (payload >>> 8)
  let seed1 := if bidirectional then seed ^^^ 0xFFF else seed
  seed1 &&& 0xF

/-! ### Wire-frame field extraction (spec section 8, byte-order round
trip): reverse the byte swap, then read throttle from bits 5-15,
telemetry from bit 4, crc from bits 0-3. -/

def extract_throttle (v : Nat) : Nat := (v >>> 5) &&& 0x7FF

def extract_telemetry (v : Nat) : Bool := ((v >>> 4) &&& 1) == 1

def extract_crc (v : Nat) : Nat := v &&& 0xF

/-! ### A bounded checker with logarithmic recursion depth, used to
verify properties over all throttle values by kernel evaluation. -/

def check_interval (f : Nat → Bool) : Nat → Nat → Nat → Bool
  | 0, _, n => n == 0
  | fuel + 1, lo, n =>
    if n == 0 then true
    else if n == 1 then f lo
    else check_interval f fuel lo (n / 2) && check_interval f fuel (lo + n / 2) (n - n / 2)

/-! ### The encode state machine: rmt_encode_dshot_esc

The two sub-encoders are external; the orchestrator observes, per
call, the symbol count each returns and the bits COMPLETE and
MEM_FULL it writes into session_state.  One sub-encoder call is
therefore a sub_encode_result.  The persisted phase of the
orchestrator (field state of dshot_rmt_encoder_t, an int in C) stays
a Nat: 0 is case 0 / RMT_ENCODING_RESET (awaiting frame), 1 is case 1
(awaiting gap). -/

structure sub_encode_result where
  symbols : Nat
  complete : Bool
  mem_full : Bool
deriving DecidableEq

structure encode_result where
  symbols : Nat
  complete : Bool
  mem_full : Bool
  state : Nat
deriving DecidableEq

/-- Case 1 of the switch (lines 96-108): run the copy encoder on the
delay symbol; on COMPLETE set the COMPLETE flag and move the phase
back to 0 (RMT_ENCODING_RESET); the MEM_FULL bit of the sub-result is
passed through (the goto out after it changes nothing further).
acc is the symbol count already produced by a fall-through from
case 0. -/
def encode_gap_phase (acc st : Nat) (gap_res : sub_encode_result) : encode_result :=
  { symbols := acc + gap_res.symbols
    complete := gap_res.complete
    mem_full := gap_res.mem_full
    state := if gap_res.complete then 0 else st }

/-- rmt_encode_dshot_esc (lines 67-113), given the persisted phase and
the observable results of the two sub-encoder calls of this
invocation.  In case 0 the bytes encoder runs on the rebuilt frame;
COMPLETE advances the phase to 1, MEM_FULL jumps to out, and
otherwise control falls through into case 1.  A phase outside {0, 1}
matches no case and the call returns with no flags. -/
def rmt_encode_dshot_esc (st : Nat) (frame_res gap_res : sub_encode_result) : encode_result :=
  if st = 0 then
    let st1 := if frame_res.complete then 1 else 0
    if frame_res.mem_full then
      { symbols := frame_res.symbols, complete := false, mem_full := true, state := st1 }
    else
      encode_gap_phase frame_res.symbols st1 gap_res
  else if st = 1 then
    encode_gap_phase 0 st gap_res
  else
    { symbols := 0, complete := false, mem_full := false, state := st }

/-- One encode call including the frame rebuild of lines 77-80: the
data handed to the bytes encoder is make_dshot_frame of the current
throttle input, rebuilt on every call; bytes_encode maps that frame
to the observable result of the bytes sub-encoder in this call. -/
def dshot_encode_call (st : Nat) (throttle : Nat) (telemetry bidirectional : Bool)
    (bytes_encode : Nat → sub_encode_result) (gap_res : sub_encode_result) : encode_result :=
  rmt_encode_dshot_esc st (bytes_encode (make_dshot_frame throttle telemetry bidirectional)) gap_res

/-! ### Construction: rmt_new_dshot_esc_encoder -/

/-- The external RMT symbol type (spec section 6 and glossary: one
timed symbol is two level/duration halves); the type itself lives in
ESP-IDF, outside this repository, so durations are plain naturals. -/
structure rmt_symbol_word where
  level0 : Nat
  duration0 : Nat
  level1 : Nat
  duration1 : Nat
deriving DecidableEq

/-- The delay symbol built at lines 144-149: level 0 in both halves,
each half lasting delay_ticks / 2 (C unsigned division). -/
def make_delay_symbol (delay_ticks : Nat) : rmt_symbol_word :=
  { level0 := 0, duration0 := delay_ticks / 2, level1 := 0, duration1 := delay_ticks / 2 }

/-- Modelled from the spec: dshot_rmt_encoder_config_t is declared in
the header dshot_rmt_encoder.h, which is not among the source files;
fields follow spec section 6 (EncoderConfig) and the field names used
by the C file. -/
structure dshot_rmt_encoder_config where
  resolution : Nat
  baud_rate : Nat
  post_delay_us : Nat
  bidirectional : Bool

/-- Line 143, delay_ticks = config->resolution / 1e6 *
config->post_delay_us, a double computation truncated to uint32,
modelled in exact rational arithmetic. -/
def delay_ticks_of (cfg : dshot_rmt_encoder_config) : Nat :=
  (⌊(cfg.resolution : ℚ) / 1000000 * (cfg.post_delay_us : ℚ)⌋).toNat

/-! ### Bit timing (lines 154-159), float arithmetic modelled in exact
rational arithmetic. -/

def period_ticks (resolution baud_rate : Nat) : ℚ :=
  (resolution : ℚ) / (baud_rate : ℚ)

def t1h_ticks (resolution baud_rate : Nat) : Nat :=
  (⌊period_ticks resolution baud_rate * (0.7485 : ℚ)⌋).toNat

def t1l_ticks (resolution baud_rate : Nat) : Nat :=
  (⌊period_ticks resolution baud_rate - (t1h_ticks resolution baud_rate : ℚ)⌋).toNat

def t0h_ticks (resolution baud_rate : Nat) : Nat :=
  (⌊period_ticks resolution baud_rate * (0.37425 : ℚ)⌋).toNat

def t0l_ticks (resolution baud_rate : Nat) : Nat :=
  (⌊period_ticks resolution baud_rate - (t0h_ticks resolution baud_rate : ℚ)⌋).toNat

/-- The orchestrator object dshot_rmt_encoder_t (lines 25-33).  The
internal states of the two owned sub-encoders are abstract types; the
delay symbol, phase and bidirectional flag are as in the C struct. -/
structure dshot_rmt_encoder (σb σc : Type) where
  bytes_st : σb
  copy_st : σc
  dshot_delay_symbol : rmt_symbol_word
  state : Nat
  bidirectional : Bool

/-- rmt_dshot_encoder_reset (lines 124-131): reset both sub-encoders
and set the phase to RMT_ENCODING_RESET = 0. -/
def rmt_dshot_encoder_reset {σb σc : Type} (reset_bytes : σb → σb) (reset_copy : σc → σc)
    (e : dshot_rmt_encoder σb σc) : dshot_rmt_encoder σb σc :=
  { e with
    bytes_st := reset_bytes e.bytes_st
    copy_st := reset_copy e.copy_st
    state := 0 }

/-- Outcome of construction: the error code, what (if anything) was
handed back through ret_encoder, and which of the three owned
resources (orchestrator storage, bytes sub-encoder, copy sub-encoder)
are still allocated when the function returns. -/
structure ctor_result (σb σc : Type) where
  err : Nat
  encoder : Option (dshot_rmt_encoder σb σc)
  live_storage : Bool
  live_bytes : Bool
  live_copy : Bool

/-- The err block of lines 180-193: if the orchestrator storage was
allocated, delete whichever sub-encoders were created (the storage is
zero-initialised by rmt_alloc_encoder_mem, so the untouched handle
fields are null) and free the storage; then return the error. -/
def ctor_err_block {σb σc : Type} (e : Nat) (storage bytes copy : Bool) : ctor_result σb σc :=
  if storage then
    { err := e, encoder := none, live_storage := false, live_bytes := false, live_copy := false }
  else
    { err := e, encoder := none, live_storage := storage, live_bytes := bytes, live_copy := copy }

/-- rmt_new_dshot_esc_encoder (lines 133-194).  External outcomes are
parameters: whether config and ret_encoder are non-null, whether
rmt_alloc_encoder_mem succeeds, and the results of creating the two
sub-encoders (an initial sub-encoder state on success, the propagated
esp error code on failure).  The phase of the built encoder is 0
because rmt_alloc_encoder_mem zero-initialises the storage and the
constructor never writes the state field. -/
def rmt_new_dshot_esc_encoder {σb σc : Type} (config : Option dshot_rmt_encoder_config)
    (ret_encoder_ok alloc_ok : Bool)
    (new_bytes_encoder : Except Nat σb) (new_copy_encoder : Except Nat σc) :
    ctor_result σb σc :=
  match config, ret_encoder_ok with
  | some cfg, true =>
    if alloc_ok then
      match new_bytes_encoder with
      | .error e => ctor_err_block e true false false
      | .ok b0 =>
        match new_copy_encoder with
        | .error e => ctor_err_block e true true false
        | .ok c0 =>
          { err := ESP_OK
            encoder := some
              { bytes_st := b0
                copy_st := c0
                dshot_delay_symbol := make_delay_symbol (delay_ticks_of cfg)
                state := 0
                bidirectional := cfg.bidirectional }
            live_storage := true
            live_bytes := true
            live_copy := true }
    else ctor_err_block ESP_ERR_NO_MEM false false false
  | _, _ => ctor_err_block ESP_ERR_INVALID_ARG false false false

/-! ## Helper lemmas -/

theorem check_interval_sound (f : Nat → Bool) :
    ∀ fuel lo n, check_interval f fuel lo n = true → ∀ i, i < n → f (lo + i) = true := by
  intro fuel
  induction fuel with
  | zero =>
    intro lo n hchk i hi
    simp only [check_interval, beq_iff_eq] at hchk
    omega
  | succ fuel ih =>
    intro lo n hchk i hi
    rw [check_interval] at hchk
    by_cases h0 : n = 0
    · omega
    · by_cases h1 : n = 1
      · have hi0 : i = 0 := by omega
        subst h1
        simp [h0] at hchk
        simpa [hi0] using hchk
      · simp only [beq_iff_eq, if_neg h0, if_neg h1, Bool.and_eq_true] at hchk
        by_cases hlt : i < n / 2
        · simpa using ih lo (n / 2) hchk.1 i hlt
        · have h2 := ih (lo + n / 2) (n - n / 2) hchk.2 (i - n / 2) (by omega)
          have harr : lo + n / 2 + (i - n / 2) = lo + i := by omega
          rwa [harr] at h2

set_option maxRecDepth 4000 in
theorem crc_check : check_interval
    (fun t => decide (∀ tel bidi : Bool,
      dshot_crc_field t tel bidi = dshot_crc_reference t tel bidi ∧
      extract_crc (make_dshot_frame_preswap t tel bidi) = dshot_crc_field t tel bidi))
    12 0 2048 = true := by
  decide

set_option maxRecDepth 4000 in
theorem round_trip_check : check_interval
    (fun t => decide (∀ tel bidi : Bool,
      extract_throttle (swap_bytes16 (make_dshot_frame t tel bidi)) = t ∧
      extract_telemetry (swap_bytes16 (make_dshot_frame t tel bidi)) = tel ∧
      dshot_crc_field (extract_throttle (swap_bytes16 (make_dshot_frame t tel bidi)))
          (extract_telemetry (swap_bytes16 (make_dshot_frame t tel bidi))) bidi =
        extract_crc (swap_bytes16 (make_dshot_frame t tel bidi))))
    12 0 2048 = true := by
  decide

/-! ## Claim theorems -/

/-- C1: for every throttle in [0, 2047] and both flags, the 4-bit CRC
field produced by make_dshot_frame (read before the byte swap, i.e.
bits 0-3 of the pre-swap frame) equals the low nibble of
payload XOR payload>>4 XOR payload>>8 for the 12-bit payload
(throttle<<1)|telemetry, inverted before taking the nibble iff
bidirectional; in particular throttle 1046 without telemetry gives
CRC 6 plain and CRC 9 bidirectional. -/
theorem dshot_crc_matches_reference (t : Nat) (ht : t < 2048) (tel bidi : Bool) :
    dshot_crc_field t tel bidi = dshot_crc_reference t tel bidi ∧
    extract_crc (make_dshot_frame_preswap t tel bidi) = dshot_crc_field t tel bidi ∧
    dshot_crc_field 1046 false false = 6 ∧
    dshot_crc_field 1046 false true = 9 := by
  have h := check_interval_sound _ 12 0 2048 crc_check t ht
  simp only [Nat.zero_add] at h
  have h2 := of_decide_eq_true h tel bidi
  exact ⟨h2.1, h2.2, by decide, by decide⟩

theorem dshot_crc_matches_reference_witness :
    (1046 : Nat) < 2048 ∧ dshot_crc_field 1046 false false = dshot_crc_reference 1046 false false :=
  ⟨by decide, (dshot_crc_matches_reference 1046 (by decide) false false).1⟩

/-- C2: an encode call in phase 0 whose bytes sub-encoder reports
MEM_FULL without COMPLETE returns right away with only the MEM_FULL
flag, keeps the persisted phase at 0, and is independent of the gap
sub-encoder (it is never invoked: changing its would-be result does
not change the outcome). -/
theorem encode_frame_mem_full_stops (fr gap gap2 : sub_encode_result)
    (hfull : fr.mem_full = true) (hcomp : fr.complete = false) :
    rmt_encode_dshot_esc 0 fr gap =
      { symbols := fr.symbols, complete := false, mem_full := true, state := 0 } ∧
    rmt_encode_dshot_esc 0 fr gap = rmt_encode_dshot_esc 0 fr gap2 := by
  constructor <;> simp [rmt_encode_dshot_esc, hfull, hcomp]

theorem encode_frame_mem_full_stops_witness :
    (⟨3, false, true⟩ : sub_encode_result).mem_full = true ∧
    rmt_encode_dshot_esc 0 ⟨3, false, true⟩ ⟨1, true, false⟩ =
      { symbols := 3, complete := false, mem_full := true, state := 0 } :=
  ⟨rfl, (encode_frame_mem_full_stops ⟨3, false, true⟩ ⟨1, true, false⟩ ⟨9, true, false⟩
    rfl rfl).1⟩

/-- C3: an encode call in phase 0 whose bytes sub-encoder reports
COMPLETE without MEM_FULL falls through into the gap phase of the same
call (the result is exactly the gap phase run after the frame phase),
and the returned symbol count is the sum of the two phase counts. -/
theorem encode_frame_complete_falls_through (fr gap : sub_encode_result)
    (hcomp : fr.complete = true) (hfull : fr.mem_full = false) :
    rmt_encode_dshot_esc 0 fr gap = encode_gap_phase fr.symbols 1 gap ∧
    (rmt_encode_dshot_esc 0 fr gap).symbols = fr.symbols + gap.symbols := by
  constructor <;> simp [rmt_encode_dshot_esc, encode_gap_phase, hcomp, hfull]

theorem encode_frame_complete_falls_through_witness :
    (⟨16, true, false⟩ : sub_encode_result).complete = true ∧
    (rmt_encode_dshot_esc 0 ⟨16, true, false⟩ ⟨1, true, false⟩).symbols = 17 :=
  ⟨rfl, (encode_frame_complete_falls_through ⟨16, true, false⟩ ⟨1, true, false⟩ rfl rfl).2⟩

/-- C4: one frame encoded as two calls (frame phase completes but the
gap phase reports MEM_FULL in the first call; the second call
completes the gap phase) produces the same total symbol count and the
same final persisted phase, namely 0, as a single call in which the
gap phase completes at once, for the same throttle input and
sub-encoder behaviour; the frame argument is rebuilt from the input
inside every dshot_encode_call and only the phase is carried over. -/
theorem encode_split_equals_single (throttle : Nat) (telemetry bidirectional : Bool)
    (bytes_encode : Nat → sub_encode_result) (g1 g2 g : sub_encode_result)
    (hfc : (bytes_encode (make_dshot_frame throttle telemetry bidirectional)).complete = true)
    (hff : (bytes_encode (make_dshot_frame throttle telemetry bidirectional)).mem_full = false)
    (hg1c : g1.complete = false) (hg1f : g1.mem_full = true)
    (hg2c : g2.complete = true) (hg2f : g2.mem_full = false)
    (hgc : g.complete = true) (hgf : g.mem_full = false)
    (hsum : g1.symbols + g2.symbols = g.symbols) :
    (dshot_encode_call 0 throttle telemetry bidirectional bytes_encode g1).symbols +
      (dshot_encode_call
        (dshot_encode_call 0 throttle telemetry bidirectional bytes_encode g1).state
        throttle telemetry bidirectional bytes_encode g2).symbols =
      (dshot_encode_call 0 throttle telemetry bidirectional bytes_encode g).symbols ∧
    (dshot_encode_call
        (dshot_encode_call 0 throttle telemetry bidirectional bytes_encode g1).state
        throttle telemetry bidirectional bytes_encode g2).state =
      (dshot_encode_call 0 throttle telemetry bidirectional bytes_encode g).state ∧
    (dshot_encode_call 0 throttle telemetry bidirectional bytes_encode g).state = 0 := by
  simp only [dshot_encode_call, rmt_encode_dshot_esc, encode_gap_phase,
    hfc, hff, hg1c, hg1f, hg2c, hg2f, hgc, hgf]
  simp
  omega

theorem encode_split_equals_single_witness :
    (dshot_encode_call 0 1046 false false (fun _ => ⟨16, true, false⟩) ⟨0, false, true⟩).symbols +
      (dshot_encode_call
        (dshot_encode_call 0 1046 false false (fun _ => ⟨16, true, false⟩) ⟨0, false, true⟩).state
        1046 false false (fun _ => ⟨16, true, false⟩) ⟨1, true, false⟩).symbols =
      (dshot_encode_call 0 1046 false false (fun _ => ⟨16, true, false⟩) ⟨1, true, false⟩).symbols :=
  (encode_split_equals_single 1046 false false (fun _ => ⟨16, true, false⟩)
    ⟨0, false, true⟩ ⟨1, true, false⟩ ⟨1, true, false⟩
    rfl rfl rfl rfl rfl rfl rfl rfl rfl).1

/-- C5: the persisted phase is 0 or 1 (never anything else) starting
from a fresh encoder, it is 0 right after construction, every encode
call returning with the COMPLETE flag leaves it at 0, and reset from
any state sets it to 0 while resetting both owned sub-encoders. -/
theorem encoder_state_invariant :
    (∀ (σb σc : Type) (config : Option dshot_rmt_encoder_config) (rp alloc : Bool)
        (be : Except Nat σb) (ce : Except Nat σc) (e : dshot_rmt_encoder σb σc),
        (rmt_new_dshot_esc_encoder config rp alloc be ce).encoder = some e → e.state = 0) ∧
    (∀ (st : Nat) (fr gap : sub_encode_result), st = 0 ∨ st = 1 →
        (rmt_encode_dshot_esc st fr gap).state = 0 ∨
          (rmt_encode_dshot_esc st fr gap).state = 1) ∧
    (∀ (st : Nat) (fr gap : sub_encode_result),
        (rmt_encode_dshot_esc st fr gap).complete = true →
        (rmt_encode_dshot_esc st fr gap).state = 0) ∧
    (∀ (σb σc : Type) (rb : σb → σb) (rc : σc → σc) (e : dshot_rmt_encoder σb σc),
        (rmt_dshot_encoder_reset rb rc e).state = 0 ∧
        (rmt_dshot_encoder_reset rb rc e).bytes_st = rb e.bytes_st ∧
        (rmt_dshot_encoder_reset rb rc e).copy_st = rc e.copy_st) := by
  refine ⟨?_, ?_, ?_, ?_⟩
  · intro σb σc config rp alloc be ce e h
    rcases config with _ | cfg <;> cases rp <;> cases alloc <;>
      rcases be with e1 | b0 <;> rcases ce with e2 | c0 <;>
      simp [rmt_new_dshot_esc_encoder, ctor_err_block] at h <;>
      simp [← h]
  · intro st fr gap hst
    rcases hst with h | h <;> subst h <;>
      simp [rmt_encode_dshot_esc, encode_gap_phase] <;>
      cases hc : fr.complete <;> cases hf : fr.mem_full <;> cases hg : gap.complete <;> simp
  · intro st fr gap h
    by_cases h0 : st = 0
    · subst h0
      cases hc : fr.complete <;> cases hf : fr.mem_full <;>
        simp [rmt_encode_dshot_esc, encode_gap_phase, hc, hf] at h ⊢ <;> simp [h]
    · by_cases h1 : st = 1
      · subst h1
        simp [rmt_encode_dshot_esc, encode_gap_phase] at h ⊢
        simp [h]
      · simp [rmt_encode_dshot_esc, h0, h1] at h
  · intro σb σc rb rc e
    exact ⟨rfl, rfl, rfl⟩

theorem encoder_state_invariant_witness :
    ((rmt_encode_dshot_esc 0 ⟨16, true, false⟩ ⟨1, true, false⟩).state = 0 ∨
      (rmt_encode_dshot_esc 0 ⟨16, true, false⟩ ⟨1, true, false⟩).state = 1) ∧
    (rmt_dshot_encoder_reset (fun n : Nat => n + 1) (fun n : Nat => n * 2)
        ⟨5, 7, make_delay_symbol 9, 1, false⟩).state = 0 :=
  ⟨encoder_state_invariant.2.1 0 ⟨16, true, false⟩ ⟨1, true, false⟩ (Or.inl rfl),
    (encoder_state_invariant.2.2.2 Nat Nat (fun n => n + 1) (fun n => n * 2)
      ⟨5, 7, make_delay_symbol 9, 1, false⟩).1⟩

/-- C6: for every throttle in [0, 2047] and both flags, swapping the
two bytes of the wire-order frame back and extracting bits 5-15,
bit 4 and bits 0-3 recovers the throttle and telemetry exactly, and
recomputing the CRC over the extracted fields (same bidirectional
flag) equals the extracted CRC field. -/
theorem wire_frame_round_trip (t : Nat) (ht : t < 2048) (tel bidi : Bool) :
    extract_throttle (swap_bytes16 (make_dshot_frame t tel bidi)) = t ∧
    extract_telemetry (swap_bytes16 (make_dshot_frame t tel bidi)) = tel ∧
    dshot_crc_field (extract_throttle (swap_bytes16 (make_dshot_frame t tel bidi)))
        (extract_telemetry (swap_bytes16 (make_dshot_frame t tel bidi))) bidi =
      extract_crc (swap_bytes16 (make_dshot_frame t tel bidi)) := by
  have h := check_interval_sound _ 12 0 2048 round_trip_check t ht
  simp only [Nat.zero_add] at h
  exact of_decide_eq_true h tel bidi

theorem wire_frame_round_trip_witness :
    (1046 : Nat) < 2048 ∧
    extract_throttle (swap_bytes16 (make_dshot_frame 1046 false false)) = 1046 :=
  ⟨by decide, (wire_frame_round_trip 1046 (by decide) false false).1⟩

/-- C7: construction returns ESP_ERR_INVALID_ARG exactly when config
or ret_encoder is null (the collaborator creation calls do not
themselves report invalid argument for the non-null pointers handed
to them); the error result never depends on the contents of a
non-null config (no validation of resolution or baud rate); and on
every failure path nothing is handed back and no resource stays
allocated. -/
theorem construction_error_paths {σb σc : Type} (config : Option dshot_rmt_encoder_config)
    (rp alloc : Bool) (be : Except Nat σb) (ce : Except Nat σc)
    (hbe : ∀ e, be = .error e → e ≠ ESP_ERR_INVALID_ARG)
    (hce : ∀ e, ce = .error e → e ≠ ESP_ERR_INVALID_ARG) :
    ((rmt_new_dshot_esc_encoder config rp alloc be ce).err = ESP_ERR_INVALID_ARG ↔
      (config = none ∨ rp = false)) ∧
    ((rmt_new_dshot_esc_encoder config rp alloc be ce).err ≠ ESP_OK →
      (rmt_new_dshot_esc_encoder config rp alloc be ce).encoder = none ∧
      (rmt_new_dshot_esc_encoder config rp alloc be ce).live_storage = false ∧
      (rmt_new_dshot_esc_encoder config rp alloc be ce).live_bytes = false ∧
      (rmt_new_dshot_esc_encoder config rp alloc be ce).live_copy = false) ∧
    (∀ cfg cfg2 : dshot_rmt_encoder_config,
      (@rmt_new_dshot_esc_encoder σb σc (some cfg) rp alloc be ce).err =
        (@rmt_new_dshot_esc_encoder σb σc (some cfg2) rp alloc be ce).err) := by
  rcases config with _ | cfg <;> cases rp <;> cases alloc <;>
    rcases hbeq : be with e1 | b0 <;> rcases hceq : ce with e2 | c0 <;>
    simp_all [rmt_new_dshot_esc_encoder, ctor_err_block,
      ESP_OK, ESP_ERR_NO_MEM, ESP_ERR_INVALID_ARG]

theorem construction_error_paths_witness :
    (@rmt_new_dshot_esc_encoder Nat Nat none true true (.ok 0) (.ok 0)).err =
      ESP_ERR_INVALID_ARG :=
  (construction_error_paths none true true (.ok 0) (.ok 0)
    (fun e h => by cases h) (fun e h => by cases h)).1.mpr (Or.inl rfl)

/-- C8: the gap symbol holds level 0 in both halves, each half lasts
floor(delay_ticks / 2), the halves are exactly equal, the total is
2 * floor(delay_ticks / 2), one tick short of delay_ticks whenever
delay_ticks is odd; delay_ticks ranges over all naturals, covering
every value of the construction-time formula, and the constructor
stores exactly make_delay_symbol of delay_ticks_of config. -/
theorem delay_symbol_shape (delay_ticks : Nat) :
    (make_delay_symbol delay_ticks).level0 = 0 ∧
    (make_delay_symbol delay_ticks).level1 = 0 ∧
    (make_delay_symbol delay_ticks).duration0 = delay_ticks / 2 ∧
    (make_delay_symbol delay_ticks).duration1 = delay_ticks / 2 ∧
    (make_delay_symbol delay_ticks).duration0 = (make_delay_symbol delay_ticks).duration1 ∧
    (make_delay_symbol delay_ticks).duration0 + (make_delay_symbol delay_ticks).duration1 =
      2 * (delay_ticks / 2) ∧
    (delay_ticks % 2 = 1 →
      (make_delay_symbol delay_ticks).duration0 + (make_delay_symbol delay_ticks).duration1 =
        delay_ticks - 1) ∧
    (∀ (σb σc : Type) (cfg : dshot_rmt_encoder_config) (b0 : σb) (c0 : σc)
        (e : dshot_rmt_encoder σb σc),
      (rmt_new_dshot_esc_encoder (some cfg) true true (.ok b0) (.ok c0)).encoder = some e →
      e.dshot_delay_symbol = make_delay_symbol (delay_ticks_of cfg)) := by
  refine ⟨rfl, rfl, rfl, rfl, rfl, by simp [make_delay_symbol]; omega,
    by simp [make_delay_symbol]; omega, ?_⟩
  intro σb σc cfg b0 c0 e h
  simp [rmt_new_dshot_esc_encoder] at h
  simp [← h]

theorem delay_symbol_shape_witness :
    (5 : Nat) % 2 = 1 ∧
    (make_delay_symbol 5).duration0 + (make_delay_symbol 5).duration1 = 5 - 1 :=
  ⟨by decide, (delay_symbol_shape 5).2.2.2.2.2.2.1 (by decide)⟩

/-- C9: at resolution 40 MHz and baud rate 600000 the bit period is
200/3 ticks (66.67 up to rounding at two decimals) and the
truncate-formulas of lines 156-159 give high/low of 49/17 ticks for a
logical one and 24/42 ticks for a logical zero; 49 and 24 are the
values within one tick of the approximate 50 and 25 of the claim. -/
theorem timing_dshot600_at_40mhz :
    period_ticks 40000000 600000 = 200 / 3 ∧
    |period_ticks 40000000 600000 - (66.67 : ℚ)| ≤ 1 / 100 ∧
    t1h_ticks 40000000 600000 = 49 ∧
    t1l_ticks 40000000 600000 = 17 ∧
    t0h_ticks 40000000 600000 = 24 ∧
    t0l_ticks 40000000 600000 = 42 ∧
    50 - t1h_ticks 40000000 600000 ≤ 1 ∧
    25 - t0h_ticks 40000000 600000 ≤ 1 := by
  have hp : period_ticks 40000000 600000 = 200 / 3 := by
    norm_num [period_ticks]
  have ht1h : t1h_ticks 40000000 600000 = 49 := by
    rw [t1h_ticks, hp]
    have h1 : (200 / 3 : ℚ) * (0.7485 : ℚ) = 499 / 10 := by norm_num
    rw [h1]
    have h2 : ⌊(499 / 10 : ℚ)⌋ = 49 := by rw [Int.floor_eq_iff]; norm_num
    rw [h2]
    rfl
  have ht0h : t0h_ticks 40000000 600000 = 24 := by
    rw [t0h_ticks, hp]
    have h1 : (200 / 3 : ℚ) * (0.37425 : ℚ) = 499 / 20 := by norm_num
    rw [h1]
    have h2 : ⌊(499 / 20 : ℚ)⌋ = 24 := by rw [Int.floor_eq_iff]; norm_num
    rw [h2]
    rfl
  have ht1l : t1l_ticks 40000000 600000 = 17 := by
    rw [t1l_ticks, ht1h, hp]
    have h1 : (200 / 3 : ℚ) - ((49 : Nat) : ℚ) = 53 / 3 := by norm_num
    rw [h1]
    have h2 : ⌊(53 / 3 : ℚ)⌋ = 17 := by rw [Int.floor_eq_iff]; norm_num
    rw [h2]
    rfl
  have ht0l : t0l_ticks 40000000 600000 = 42 := by
    rw [t0l_ticks, ht0h, hp]
    have h1 : (200 / 3 : ℚ) - ((24 : Nat) : ℚ) = 128 / 3 := by norm_num
    rw [h1]
    have h2 : ⌊(128 / 3 : ℚ)⌋ = 42 := by rw [Int.floor_eq_iff]; norm_num
    rw [h2]
    rfl
  refine ⟨hp, by rw [hp]; rw [abs_le]; constructor <;> norm_num, ht1h, ht1l, ht0h, ht0l,
    by rw [ht1h], by rw [ht0h]⟩

/-- C10: an encode call in phase 0 whose bytes sub-encoder reports
COMPLETE and MEM_FULL together advances the persisted phase to 1, yet
returns with only MEM_FULL set and without invoking the gap
sub-encoder (the outcome is independent of its would-be result); a
subsequent call in phase 1 goes straight to the gap phase. -/
theorem encode_frame_complete_and_full_advances (fr gap gap2 fr2 gap3 : sub_encode_result)
    (hcomp : fr.complete = true) (hfull : fr.mem_full = true) :
    rmt_encode_dshot_esc 0 fr gap =
      { symbols := fr.symbols, complete := false, mem_full := true, state := 1 } ∧
    rmt_encode_dshot_esc 0 fr gap = rmt_encode_dshot_esc 0 fr gap2 ∧
    rmt_encode_dshot_esc 1 fr2 gap3 = encode_gap_phase 0 1 gap3 := by
  refine ⟨?_, ?_, ?_⟩ <;> simp [rmt_encode_dshot_esc, hcomp, hfull]

theorem encode_frame_complete_and_full_advances_witness :
    (⟨16, true, true⟩ : sub_encode_result).complete = true ∧
    rmt_encode_dshot_esc 0 ⟨16, true, true⟩ ⟨0, false, false⟩ =
      { symbols := 16, complete := false, mem_full := true, state := 1 } :=
  ⟨rfl, (encode_frame_complete_and_full_advances ⟨16, true, true⟩ ⟨0, false, false⟩
    ⟨2, false, false⟩ ⟨7, true, false⟩ ⟨1, true, false⟩ rfl rfl).1⟩
